import Mathlib

/-!
Verification of the configuration module `src/backend/config.py` of
OrderOctopus.

The file `config.py` declares a `Settings` class (a pydantic-settings
`BaseSettings` subclass) listing 24 typed fields, 9 of them without a
default, and configures loading from the process environment with an
optional `.env` override file
(`model_config = SettingsConfigDict(env_file=".env", env_file_encoding="utf-8")`).

The schema below (`schema`, `Settings`, `Settings.model_config`) is embedded
directly from `config.py`.  The loading machinery itself lives in the
pydantic-settings dependency and is not part of the repository sources, so it
is modelled from the spec's load algorithm (resolve each declared field from
the environment first, else the override file, else the declared default;
coerce; collect missing-required and coercion errors; fail the whole load on
any error) together with the library's documented defaults: case-insensitive
environment matching, environment values taking precedence over the override
file, undeclared keys in the override file being forbidden (`extra="forbid"`),
and instances not being frozen.  Environments and override files are modelled
as association lists of key/value pairs; float values are modelled as exact
rationals.
-/

set_option autoImplicit false

namespace OrderOctopus

/-- The declared type of a configuration field: `str`, `int`, `bool` or
`float` in `config.py`.  Floats are modelled exactly, as rationals. -/
inductive FieldType where
  | tStr
  | tInt
  | tBool
  | tFloat
  deriving DecidableEq

/-- A typed configuration value. -/
inductive Value where
  | vStr (s : String)
  | vInt (n : Int)
  | vBool (b : Bool)
  | vFloat (q : ℚ)
  deriving DecidableEq

/-- One declared field of the `Settings` class: its name, its type
annotation, and its declared default value when it has one. -/
structure FieldSpec where
  name : String
  type : FieldType
  default : Option Value
  deriving DecidableEq

/-- The source's `0.5` default, as a reduced rational. -/
def ratHalf : ℚ := mkRat 1 2

/-- The declared fields of `Settings`, in source order, embedded from
`config.py` lines 12-47. -/
def schema : List FieldSpec := [
  ⟨"environment", .tStr, some (.vStr "development")⟩,
  ⟨"debug", .tBool, some (.vBool true)⟩,
  ⟨"app_name", .tStr, some (.vStr "OrderOctopus")⟩,
  ⟨"host", .tStr, some (.vStr "0.0.0.0")⟩,
  ⟨"port", .tInt, some (.vInt 8000)⟩,
  ⟨"supabase_url", .tStr, none⟩,
  ⟨"supabase_key", .tStr, none⟩,
  ⟨"supabase_service_key", .tStr, none⟩,
  ⟨"facebook_page_access_token", .tStr, none⟩,
  ⟨"facebook_verify_token", .tStr, none⟩,
  ⟨"facebook_app_secret", .tStr, none⟩,
  ⟨"anthropic_api_key", .tStr, some (.vStr "")⟩,
  ⟨"openai_api_key", .tStr, some (.vStr "")⟩,
  ⟨"llm_provider", .tStr, some (.vStr "anthropic")⟩,
  ⟨"stripe_secret_key", .tStr, none⟩,
  ⟨"stripe_publishable_key", .tStr, none⟩,
  ⟨"stripe_webhook_secret", .tStr, none⟩,
  ⟨"default_venue_language", .tStr, some (.vStr "en")⟩,
  ⟨"max_free_menu_parses", .tInt, some (.vInt 3)⟩,
  ⟨"default_free_credits", .tInt, some (.vInt 25)⟩,
  ⟨"credits_per_order", .tFloat, some (.vFloat 1)⟩,
  ⟨"credits_per_rejection", .tFloat, some (.vFloat ratHalf)⟩,
  ⟨"credits_per_menu_import", .tInt, some (.vInt 15)⟩,
  ⟨"log_level", .tStr, some (.vStr "INFO")⟩]

/-- The names of the declared fields, in source order. -/
def schemaNames : List String := schema.map FieldSpec.name

/-- The validated configuration object: one typed attribute per declared
field of `config.py`. -/
structure Settings where
  environment : String
  debug : Bool
  app_name : String
  host : String
  port : Int
  supabase_url : String
  supabase_key : String
  supabase_service_key : String
  facebook_page_access_token : String
  facebook_verify_token : String
  facebook_app_secret : String
  anthropic_api_key : String
  openai_api_key : String
  llm_provider : String
  stripe_secret_key : String
  stripe_publishable_key : String
  stripe_webhook_secret : String
  default_venue_language : String
  max_free_menu_parses : Int
  default_free_credits : Int
  credits_per_order : ℚ
  credits_per_rejection : ℚ
  credits_per_menu_import : Int
  log_level : String
  deriving DecidableEq

/-- The relevant parts of the pydantic-settings model configuration.
Modelled from the spec: the `SettingsConfigDict` options the loader consults;
only the options the claims depend on are represented. -/
structure SettingsConfig where
  env_file : Option String
  env_file_encoding : Option String
  case_sensitive : Bool
  extra_forbid : Bool
  frozen : Bool
  deriving DecidableEq

/-- The `BaseSettings` defaults of the library (case-insensitive matching,
extra inputs forbidden, instances not frozen), which `config.py` does not
override. -/
def baseSettingsConfig : SettingsConfig :=
  ⟨none, none, false, true, false⟩

/-- `Settings.model_config` from `config.py` line 9: the subclass sets
`env_file=".env"` and `env_file_encoding="utf-8"` and inherits everything
else from `BaseSettings`. -/
def Settings.model_config : SettingsConfig :=
  { baseSettingsConfig with env_file := some ".env", env_file_encoding := some "utf-8" }

/-- An environment (or a parsed override file): an association list of
key/value pairs. -/
abbrev Env := List (String × String)

/-- ASCII lowercasing of a character (sufficient for configuration keys and
boolean tokens). -/
def lowerChar (c : Char) : Char :=
  if c.toNat ≥ 65 ∧ c.toNat ≤ 90 then Char.ofNat (c.toNat + 32) else c

/-- ASCII lowercasing of a string. -/
def lowerStr (s : String) : String := ⟨s.data.map lowerChar⟩

/-- ASCII whitespace. -/
def isWs (c : Char) : Bool := c == ' ' || c == '\t' || c == '\n' || c == '\r'

/-- Strip leading and trailing whitespace. -/
def trimChars (cs : List Char) : List Char :=
  ((cs.dropWhile isWs).reverse.dropWhile isWs).reverse

/-- Numeric value of a list of decimal digit characters. -/
def digitsVal (cs : List Char) : Nat :=
  cs.foldl (fun a c => 10 * a + (c.toNat - 48)) 0

/-- Parse a nonempty all-digit character list as a natural number. -/
def parseNatDigits (cs : List Char) : Option Nat :=
  if cs ≠ [] ∧ cs.all Char.isDigit then some (digitsVal cs) else none

/-- Modelled from the spec: standard strict integer parsing (optional sign,
decimal digits, surrounding whitespace tolerated); non-numeric text fails. -/
def parseInt (s : String) : Option Int :=
  match trimChars s.data with
  | '+' :: rest => (parseNatDigits rest).map Int.ofNat
  | '-' :: rest => (parseNatDigits rest).map (fun n => -(n : Int))
  | cs => (parseNatDigits cs).map Int.ofNat

/-- Value of an unsigned decimal literal `ip.fp` as an exact rational;
at least one of the two digit groups must be nonempty. -/
def ratOfParts (ip fp : List Char) : Option ℚ :=
  if (ip ≠ [] ∨ fp ≠ []) ∧ ip.all Char.isDigit ∧ fp.all Char.isDigit then
    some ((digitsVal ip : ℚ) + (digitsVal fp : ℚ) / ((10 : ℚ) ^ fp.length))
  else none

/-- Unsigned decimal parsing: digits with at most one decimal point. -/
def parseRatCore (cs : List Char) : Option ℚ :=
  match cs.splitOn '.' with
  | [ip] => ratOfParts ip []
  | [ip, fp] => ratOfParts ip fp
  | _ => none

/-- Modelled from the spec: standard strict decimal float parsing (optional
sign, digits, optional fractional part, surrounding whitespace tolerated);
non-numeric text fails.  Values are exact rationals. -/
def parseRat (s : String) : Option ℚ :=
  match trimChars s.data with
  | '+' :: rest => parseRatCore rest
  | '-' :: rest => (parseRatCore rest).map Neg.neg
  | cs => parseRatCore cs

/-- The accepted truthy string tokens for a boolean field (documented lax
boolean coercion of the validation library, matched case-insensitively). -/
def trueTokens : List String := ["true", "t", "yes", "y", "on", "1"]

/-- The accepted falsy string tokens for a boolean field. -/
def falseTokens : List String := ["false", "f", "no", "n", "off", "0"]

/-- Modelled from the spec: boolean fields accept a small fixed set of
truthy/falsy string tokens, case-insensitively; anything else fails. -/
def parseBool (s : String) : Option Bool :=
  if lowerStr s ∈ trueTokens then some true
  else if lowerStr s ∈ falseTokens then some false
  else none

/-- Coerce a raw textual value into a field's declared type.  String fields
pass through unchanged. -/
def coerce : FieldType → String → Option Value
  | .tStr, s => some (.vStr s)
  | .tInt, s => (parseInt s).map .vInt
  | .tBool, s => (parseBool s).map .vBool
  | .tFloat, s => (parseRat s).map .vFloat

/-- Case-insensitive lookup of a declared (lowercase) field name in a
key/value source: the first pair whose key lowercases to the name. -/
def lookupCI (src : Env) (name : String) : Option String :=
  (src.find? (fun p => lowerStr p.1 == name)).map Prod.snd

/-- The raw resolved value of a field: the environment if it has the name
(case-insensitively), else the override file.  Environment precedence. -/
def rawValue (env dotenv : Env) (name : String) : Option String :=
  (lookupCI env name).orElse (fun _ => lookupCI dotenv name)

/-- A configuration load error. -/
inductive LoadError where
  | missingRequired (field : String)
  | coercionFailure (field : String) (raw : String) (expected : FieldType)
  | extraForbidden (key : String)
  deriving DecidableEq

/-- The error produced by one declared field, if any: a coercion failure
when a raw value is present but does not coerce, a missing-required error
when no source supplies the field and it has no default. -/
def fieldError (env dotenv : Env) (f : FieldSpec) : Option LoadError :=
  match rawValue env dotenv f.name with
  | some raw =>
    match coerce f.type raw with
    | some _ => none
    | none => some (.coercionFailure f.name raw f.type)
  | none =>
    match f.default with
    | some _ => none
    | none => some (.missingRequired f.name)

/-- Errors from override-file entries whose key matches no declared field:
with the library's `extra="forbid"` default these fail the load.  Undeclared
real environment variables are never read at all. -/
def extraErrors (dotenv : Env) : List LoadError :=
  dotenv.filterMap (fun p =>
    if lowerStr p.1 ∈ schemaNames then none else some (.extraForbidden p.1))

/-- Every error of a load attempt. -/
def loadErrors (env dotenv : Env) : List LoadError :=
  schema.filterMap (fieldError env dotenv) ++ extraErrors dotenv

/-- Resolved value of a string field (default used when no source has it). -/
def strField (env dotenv : Env) (name dflt : String) : String :=
  (rawValue env dotenv name).getD dflt

/-- Resolved value of an integer field. -/
def intField (env dotenv : Env) (name : String) (dflt : Int) : Int :=
  match rawValue env dotenv name with
  | some raw => (parseInt raw).getD dflt
  | none => dflt

/-- Resolved value of a boolean field. -/
def boolField (env dotenv : Env) (name : String) (dflt : Bool) : Bool :=
  match rawValue env dotenv name with
  | some raw => (parseBool raw).getD dflt
  | none => dflt

/-- Resolved value of a float field. -/
def ratField (env dotenv : Env) (name : String) (dflt : ℚ) : ℚ :=
  match rawValue env dotenv name with
  | some raw => (parseRat raw).getD dflt
  | none => dflt

/-- The `Settings` record assembled from the resolved field values.  Only
consumed by `load` after the error check; required string fields use `""` as
a placeholder that is unreachable when `loadErrors` is empty. -/
def buildSettings (env dotenv : Env) : Settings where
  environment := strField env dotenv "environment" "development"
  debug := boolField env dotenv "debug" true
  app_name := strField env dotenv "app_name" "OrderOctopus"
  host := strField env dotenv "host" "0.0.0.0"
  port := intField env dotenv "port" 8000
  supabase_url := strField env dotenv "supabase_url" ""
  supabase_key := strField env dotenv "supabase_key" ""
  supabase_service_key := strField env dotenv "supabase_service_key" ""
  facebook_page_access_token := strField env dotenv "facebook_page_access_token" ""
  facebook_verify_token := strField env dotenv "facebook_verify_token" ""
  facebook_app_secret := strField env dotenv "facebook_app_secret" ""
  anthropic_api_key := strField env dotenv "anthropic_api_key" ""
  openai_api_key := strField env dotenv "openai_api_key" ""
  llm_provider := strField env dotenv "llm_provider" "anthropic"
  stripe_secret_key := strField env dotenv "stripe_secret_key" ""
  stripe_publishable_key := strField env dotenv "stripe_publishable_key" ""
  stripe_webhook_secret := strField env dotenv "stripe_webhook_secret" ""
  default_venue_language := strField env dotenv "default_venue_language" "en"
  max_free_menu_parses := intField env dotenv "max_free_menu_parses" 3
  default_free_credits := intField env dotenv "default_free_credits" 25
  credits_per_order := ratField env dotenv "credits_per_order" 1
  credits_per_rejection := ratField env dotenv "credits_per_rejection" ratHalf
  credits_per_menu_import := intField env dotenv "credits_per_menu_import" 15
  log_level := strField env dotenv "log_level" "INFO"

/-- Modelled from the spec: `load() -> Settings`, the whole construction of a
`Settings` instance from the ambient environment and the optional override
file.  Produces the assembled instance only when no field is missing, none
fails coercion and the override file has no undeclared entry; otherwise the
whole load fails with the full error list and no instance is produced. -/
def load (env dotenv : Env) : Except (List LoadError) Settings :=
  if loadErrors env dotenv = [] then .ok (buildSettings env dotenv)
  else .error (loadErrors env dotenv)

/-- Read the attribute named `name` off a `Settings` instance, as a typed
value; `none` for an undeclared name. -/
def Settings.get (s : Settings) (name : String) : Option Value :=
  if name = "environment" then some (.vStr s.environment)
  else if name = "debug" then some (.vBool s.debug)
  else if name = "app_name" then some (.vStr s.app_name)
  else if name = "host" then some (.vStr s.host)
  else if name = "port" then some (.vInt s.port)
  else if name = "supabase_url" then some (.vStr s.supabase_url)
  else if name = "supabase_key" then some (.vStr s.supabase_key)
  else if name = "supabase_service_key" then some (.vStr s.supabase_service_key)
  else if name = "facebook_page_access_token" then some (.vStr s.facebook_page_access_token)
  else if name = "facebook_verify_token" then some (.vStr s.facebook_verify_token)
  else if name = "facebook_app_secret" then some (.vStr s.facebook_app_secret)
  else if name = "anthropic_api_key" then some (.vStr s.anthropic_api_key)
  else if name = "openai_api_key" then some (.vStr s.openai_api_key)
  else if name = "llm_provider" then some (.vStr s.llm_provider)
  else if name = "stripe_secret_key" then some (.vStr s.stripe_secret_key)
  else if name = "stripe_publishable_key" then some (.vStr s.stripe_publishable_key)
  else if name = "stripe_webhook_secret" then some (.vStr s.stripe_webhook_secret)
  else if name = "default_venue_language" then some (.vStr s.default_venue_language)
  else if name = "max_free_menu_parses" then some (.vInt s.max_free_menu_parses)
  else if name = "default_free_credits" then some (.vInt s.default_free_credits)
  else if name = "credits_per_order" then some (.vFloat s.credits_per_order)
  else if name = "credits_per_rejection" then some (.vFloat s.credits_per_rejection)
  else if name = "credits_per_menu_import" then some (.vInt s.credits_per_menu_import)
  else if name = "log_level" then some (.vStr s.log_level)
  else none

/-- What one declared field resolves to before the error check: the coercion
of the raw value when some source supplies the field, else its default. -/
def resolvedValue (env dotenv : Env) (f : FieldSpec) : Option Value :=
  match rawValue env dotenv f.name with
  | some raw => coerce f.type raw
  | none => f.default

/-- Assignment to an attribute of a constructed instance, as the validation
library treats it: rejected when the model configuration is frozen, rejected
for an undeclared name, and otherwise performed.  `config.py` does not set
`frozen`, so its instances accept assignment. -/
def setAttr (cfg : SettingsConfig) (s : Settings) (name : String) (v : Value) :
    Except String Settings :=
  if cfg.frozen then .error "settings instance is frozen"
  else match name, v with
  | "environment", .vStr x => .ok { s with environment := x }
  | "debug", .vBool x => .ok { s with debug := x }
  | "app_name", .vStr x => .ok { s with app_name := x }
  | "host", .vStr x => .ok { s with host := x }
  | "port", .vInt x => .ok { s with port := x }
  | "supabase_url", .vStr x => .ok { s with supabase_url := x }
  | "supabase_key", .vStr x => .ok { s with supabase_key := x }
  | "supabase_service_key", .vStr x => .ok { s with supabase_service_key := x }
  | "facebook_page_access_token", .vStr x => .ok { s with facebook_page_access_token := x }
  | "facebook_verify_token", .vStr x => .ok { s with facebook_verify_token := x }
  | "facebook_app_secret", .vStr x => .ok { s with facebook_app_secret := x }
  | "anthropic_api_key", .vStr x => .ok { s with anthropic_api_key := x }
  | "openai_api_key", .vStr x => .ok { s with openai_api_key := x }
  | "llm_provider", .vStr x => .ok { s with llm_provider := x }
  | "stripe_secret_key", .vStr x => .ok { s with stripe_secret_key := x }
  | "stripe_publishable_key", .vStr x => .ok { s with stripe_publishable_key := x }
  | "stripe_webhook_secret", .vStr x => .ok { s with stripe_webhook_secret := x }
  | "default_venue_language", .vStr x => .ok { s with default_venue_language := x }
  | "max_free_menu_parses", .vInt x => .ok { s with max_free_menu_parses := x }
  | "default_free_credits", .vInt x => .ok { s with default_free_credits := x }
  | "credits_per_order", .vFloat x => .ok { s with credits_per_order := x }
  | "credits_per_rejection", .vFloat x => .ok { s with credits_per_rejection := x }
  | "credits_per_menu_import", .vInt x => .ok { s with credits_per_menu_import := x }
  | "log_level", .vStr x => .ok { s with log_level := x }
  | _, _ => .error "no such settings attribute"

/-- Mirrors `settings = Settings()` on line 50 of `config.py`: the
process-wide instance, constructed once at import time from the ambient
environment and override-file contents. -/
def settings (env dotenv : Env) : Except (List LoadError) Settings :=
  load env dotenv

/-- The names of the fields declared without a default ("required"). -/
def requiredNames : List String :=
  (schema.filter (fun f => f.default.isNone)).map FieldSpec.name

/-- The name and declared default of every optional field. -/
def optionalDefaults : List (String × Value) :=
  schema.filterMap (fun f => f.default.map (fun d => (f.name, d)))

/-- The names of the fields declared with a numeric (`int` or `float`)
type. -/
def numericFieldNames : List String :=
  (schema.filter (fun f =>
    f.type == FieldType.tInt || f.type == FieldType.tFloat)).map FieldSpec.name

/-- The environment of the spec's end-to-end example: exactly the nine
required fields supplied, every optional field omitted. -/
def exEnv : Env := [
  ("supabase_url", "https://x.test"),
  ("supabase_key", "abc"),
  ("supabase_service_key", "def"),
  ("facebook_page_access_token", "fpt"),
  ("facebook_verify_token", "fvt"),
  ("facebook_app_secret", "fas"),
  ("stripe_secret_key", "sk"),
  ("stripe_publishable_key", "pk"),
  ("stripe_webhook_secret", "wh")]

/-- `filterMap` only depends on the values of the function on the list. -/
theorem filterMap_ext_on {α β : Type} (f g : α → Option β) (l : List α)
    (h : ∀ a ∈ l, f a = g a) : l.filterMap f = l.filterMap g := by
  induction l with
  | nil => rfl
  | cons a t ih =>
    rw [List.filterMap_cons, List.filterMap_cons, h a (List.mem_cons_self a t),
      ih (fun x hx => h x (List.mem_cons_of_mem a hx))]

/-- A successful load means an empty error list and the assembled record. -/
theorem load_ok_inv (env dotenv : Env) (s : Settings)
    (h : load env dotenv = Except.ok s) :
    loadErrors env dotenv = [] ∧ s = buildSettings env dotenv := by
  unfold load at h
  by_cases he : loadErrors env dotenv = []
  · rw [if_pos he] at h
    injection h with h
    exact ⟨he, h.symm⟩
  · rw [if_neg he] at h
    exact absurd h (fun hc => Except.noConfusion hc)

/-- A nonempty error list makes the load fail, producing no instance. -/
theorem load_error_of_mem (env dotenv : Env) (e : LoadError)
    (hmem : e ∈ loadErrors env dotenv) :
    load env dotenv = Except.error (loadErrors env dotenv)
      ∧ ∀ s : Settings, load env dotenv ≠ Except.ok s := by
  have hne : loadErrors env dotenv ≠ [] := by
    intro h0
    rw [h0] at hmem
    exact absurd hmem (List.not_mem_nil e)
  have hload : load env dotenv = Except.error (loadErrors env dotenv) := by
    unfold load
    rw [if_neg hne]
  refine ⟨hload, fun s hs => ?_⟩
  rw [hload] at hs
  exact Except.noConfusion hs

/-- A field error of a declared field is among the load errors. -/
theorem mem_loadErrors_of_fieldError (env dotenv : Env) (f : FieldSpec) (e : LoadError)
    (hf : f ∈ schema) (hfe : fieldError env dotenv f = some e) :
    e ∈ loadErrors env dotenv := by
  unfold loadErrors
  exact List.mem_append.mpr (Or.inl (List.mem_filterMap.mpr ⟨f, hf, hfe⟩))

/-- When a load has no errors, every declared field's error is `none`. -/
theorem fieldError_none_of_loadErrors_nil (env dotenv : Env)
    (h : loadErrors env dotenv = []) (f : FieldSpec) (hf : f ∈ schema) :
    fieldError env dotenv f = none := by
  cases hfe : fieldError env dotenv f with
  | none => rfl
  | some e =>
    have hmem := mem_loadErrors_of_fieldError env dotenv f e hf hfe
    rw [h] at hmem
    exact absurd hmem (List.not_mem_nil e)

/-- Resolution of an optional string field. -/
theorem resolved_str_opt (env dotenv : Env) (n d : String) :
    resolvedValue env dotenv ⟨n, .tStr, some (.vStr d)⟩
      = some (.vStr (strField env dotenv n d)) := by
  cases hraw : rawValue env dotenv n with
  | none => simp [resolvedValue, strField, hraw]
  | some raw => simp [resolvedValue, strField, coerce, hraw]

/-- Resolution of a required string field under an error-free load. -/
theorem resolved_str_req (env dotenv : Env) (n : String)
    (h : fieldError env dotenv ⟨n, .tStr, none⟩ = none) :
    resolvedValue env dotenv ⟨n, .tStr, none⟩
      = some (.vStr (strField env dotenv n "")) := by
  cases hraw : rawValue env dotenv n with
  | none => exact absurd h (by simp [fieldError, hraw])
  | some raw => simp [resolvedValue, strField, coerce, hraw]

/-- Resolution of an integer field under an error-free load. -/
theorem resolved_int (env dotenv : Env) (n : String) (d : Int)
    (h : fieldError env dotenv ⟨n, .tInt, some (.vInt d)⟩ = none) :
    resolvedValue env dotenv ⟨n, .tInt, some (.vInt d)⟩
      = some (.vInt (intField env dotenv n d)) := by
  cases hraw : rawValue env dotenv n with
  | none => simp [resolvedValue, intField, hraw]
  | some raw =>
    cases hp : parseInt raw with
    | none => exact absurd h (by simp [fieldError, hraw, coerce, hp])
    | some k => simp [resolvedValue, intField, coerce, hraw, hp]

/-- Resolution of a boolean field under an error-free load. -/
theorem resolved_bool (env dotenv : Env) (n : String) (d : Bool)
    (h : fieldError env dotenv ⟨n, .tBool, some (.vBool d)⟩ = none) :
    resolvedValue env dotenv ⟨n, .tBool, some (.vBool d)⟩
      = some (.vBool (boolField env dotenv n d)) := by
  cases hraw : rawValue env dotenv n with
  | none => simp [resolvedValue, boolField, hraw]
  | some raw =>
    cases hp : parseBool raw with
    | none => exact absurd h (by simp [fieldError, hraw, coerce, hp])
    | some k => simp [resolvedValue, boolField, coerce, hraw, hp]

/-- Resolution of a float field under an error-free load. -/
theorem resolved_rat (env dotenv : Env) (n : String) (d : ℚ)
    (h : fieldError env dotenv ⟨n, .tFloat, some (.vFloat d)⟩ = none) :
    resolvedValue env dotenv ⟨n, .tFloat, some (.vFloat d)⟩
      = some (.vFloat (ratField env dotenv n d)) := by
  cases hraw : rawValue env dotenv n with
  | none => simp [resolvedValue, ratField, hraw]
  | some raw =>
    cases hp : parseRat raw with
    | none => exact absurd h (by simp [fieldError, hraw, coerce, hp])
    | some k => simp [resolvedValue, ratField, coerce, hraw, hp]

/-- The assembled record agrees fieldwise with the generic resolution of the
schema, whenever the load has no errors. -/
theorem get_buildSettings (env dotenv : Env) (h : loadErrors env dotenv = [])
    (f : FieldSpec) (hf : f ∈ schema) :
    (buildSettings env dotenv).get f.name = resolvedValue env dotenv f := by
  have hfe := fieldError_none_of_loadErrors_nil env dotenv h
  fin_cases hf
  all_goals first
  | (rw [resolved_str_opt]; rfl)
  | (rw [resolved_str_req _ _ _ (hfe _ (by decide))]; rfl)
  | (rw [resolved_int _ _ _ _ (hfe _ (by decide))]; rfl)
  | (rw [resolved_bool _ _ _ _ (hfe _ (by decide))]; rfl)
  | (rw [resolved_rat _ _ _ _ (hfe _ (by decide))]; rfl)

/-- Claim C1: the required fields are exactly supabase_url, supabase_key,
supabase_service_key, facebook_page_access_token, facebook_verify_token,
facebook_app_secret, stripe_secret_key, stripe_publishable_key and
stripe_webhook_secret, and loading with any of them absent from both the
environment and the override file fails with a missing-required-field error
naming that field; no Settings instance is produced. -/
theorem c1_missing_required_field (env dotenv : Env) (f : FieldSpec)
    (hf : f ∈ schema) (hreq : f.default = none)
    (hraw : rawValue env dotenv f.name = none) :
    (LoadError.missingRequired f.name ∈ loadErrors env dotenv
        ∧ load env dotenv = Except.error (loadErrors env dotenv)
        ∧ ∀ s : Settings, load env dotenv ≠ Except.ok s)
      ∧ requiredNames = ["supabase_url", "supabase_key", "supabase_service_key",
          "facebook_page_access_token", "facebook_verify_token",
          "facebook_app_secret", "stripe_secret_key", "stripe_publishable_key",
          "stripe_webhook_secret"] := by
  have hfe : fieldError env dotenv f = some (.missingRequired f.name) := by
    simp [fieldError, hraw, hreq]
  have hmem := mem_loadErrors_of_fieldError env dotenv f _ hf hfe
  obtain ⟨hload, hnok⟩ := load_error_of_mem env dotenv _ hmem
  exact ⟨⟨hmem, hload, hnok⟩, by decide⟩

/-- Witness for C1 at supabase_url with an empty environment and override
file. -/
theorem c1_missing_required_field_witness :
    (LoadError.missingRequired "supabase_url" ∈ loadErrors [] []
        ∧ load [] [] = Except.error (loadErrors [] [])
        ∧ ∀ s : Settings, load [] [] ≠ Except.ok s)
      ∧ requiredNames = ["supabase_url", "supabase_key", "supabase_service_key",
          "facebook_page_access_token", "facebook_verify_token",
          "facebook_app_secret", "stripe_secret_key", "stripe_publishable_key",
          "stripe_webhook_secret"] :=
  c1_missing_required_field [] [] ⟨"supabase_url", .tStr, none⟩
    (by decide) rfl rfl

/-- Claim C2: with a field absent from every source, a successful load gives
that field its declared default; the optional fields and their schema
defaults are exactly the fifteen listed (0.5 appearing as `ratHalf`). -/
theorem c2_optional_field_defaults (env dotenv : Env) (s : Settings)
    (f : FieldSpec) (d : Value) (hs : load env dotenv = Except.ok s)
    (hf : f ∈ schema) (hd : f.default = some d)
    (hraw : rawValue env dotenv f.name = none) :
    s.get f.name = some d
      ∧ optionalDefaults = [("environment", .vStr "development"),
          ("debug", .vBool true), ("app_name", .vStr "OrderOctopus"),
          ("host", .vStr "0.0.0.0"), ("port", .vInt 8000),
          ("anthropic_api_key", .vStr ""), ("openai_api_key", .vStr ""),
          ("llm_provider", .vStr "anthropic"),
          ("default_venue_language", .vStr "en"),
          ("max_free_menu_parses", .vInt 3), ("default_free_credits", .vInt 25),
          ("credits_per_order", .vFloat 1),
          ("credits_per_rejection", .vFloat ratHalf),
          ("credits_per_menu_import", .vInt 15),
          ("log_level", .vStr "INFO")] := by
  obtain ⟨hnil, rfl⟩ := load_ok_inv env dotenv s hs
  refine ⟨?_, by decide⟩
  rw [get_buildSettings env dotenv hnil f hf]
  simp [resolvedValue, hraw, hd]

/-- Witness for C2: the spec's end-to-end example environment (nine required
fields, nothing else) loads successfully and yields port 8000. -/
theorem c2_optional_field_defaults_witness :
    load exEnv [] = Except.ok (buildSettings exEnv [])
      ∧ ((buildSettings exEnv []).get "port" = some (Value.vInt 8000)
      ∧ optionalDefaults = [("environment", .vStr "development"),
          ("debug", .vBool true), ("app_name", .vStr "OrderOctopus"),
          ("host", .vStr "0.0.0.0"), ("port", .vInt 8000),
          ("anthropic_api_key", .vStr ""), ("openai_api_key", .vStr ""),
          ("llm_provider", .vStr "anthropic"),
          ("default_venue_language", .vStr "en"),
          ("max_free_menu_parses", .vInt 3), ("default_free_credits", .vInt 25),
          ("credits_per_order", .vFloat 1),
          ("credits_per_rejection", .vFloat ratHalf),
          ("credits_per_menu_import", .vInt 15),
          ("log_level", .vStr "INFO")]) := by
  have hnil : loadErrors exEnv [] = [] := by decide
  have hld : load exEnv [] = Except.ok (buildSettings exEnv []) := by
    unfold load
    rw [if_pos hnil]
  exact ⟨hld, c2_optional_field_defaults exEnv [] (buildSettings exEnv [])
    ⟨"port", .tInt, some (.vInt 8000)⟩ (Value.vInt 8000) hld (by decide)
    (by decide) (by decide)⟩

/-- Claim C3: when the environment and the override file both supply a
declared field, with different raw values, the loaded field is the coercion
of the environment's value. -/
theorem c3_env_precedence (env dotenv : Env) (s : Settings) (f : FieldSpec)
    (v v' : String) (hf : f ∈ schema) (henv : lookupCI env f.name = some v)
    (hdot : lookupCI dotenv f.name = some v') (hne : v ≠ v')
    (hs : load env dotenv = Except.ok s) :
    s.get f.name = coerce f.type v := by
  obtain ⟨hnil, rfl⟩ := load_ok_inv env dotenv s hs
  rw [get_buildSettings env dotenv hnil f hf]
  have hcoe : fieldError env dotenv f = none :=
    fieldError_none_of_loadErrors_nil env dotenv hnil f hf
  simp [resolvedValue, rawValue, henv, Option.orElse]

/-- Witness for C3: port set to 9 in the environment and 7 in the override
file; the load succeeds and port is read from the environment. -/
theorem c3_env_precedence_witness :
    load (exEnv ++ [("port", "9")]) [("port", "7")]
        = Except.ok (buildSettings (exEnv ++ [("port", "9")]) [("port", "7")])
      ∧ (buildSettings (exEnv ++ [("port", "9")]) [("port", "7")]).get "port"
        = coerce FieldType.tInt "9" := by
  have hnil : loadErrors (exEnv ++ [("port", "9")]) [("port", "7")] = [] := by
    decide
  have hld : load (exEnv ++ [("port", "9")]) [("port", "7")]
      = Except.ok (buildSettings (exEnv ++ [("port", "9")]) [("port", "7")]) := by
    unfold load
    rw [if_pos hnil]
  exact ⟨hld, c3_env_precedence (exEnv ++ [("port", "9")]) [("port", "7")]
    (buildSettings (exEnv ++ [("port", "9")]) [("port", "7")])
    ⟨"port", .tInt, some (.vInt 8000)⟩ "9" "7" (by decide) (by decide)
    (by decide) (by decide) hld⟩

/-- Claim C5: the numeric fields are exactly port, max_free_menu_parses,
default_free_credits, credits_per_order, credits_per_rejection and
credits_per_menu_import; a resolved value for one of them that fails numeric
coercion fails the whole load with an error carrying the field name, the raw
value and the expected type, and non-numeric text such as "abc" does fail
both numeric parsers. -/
theorem c5_numeric_coercion_failure (env dotenv : Env) (f : FieldSpec)
    (raw : String) (hf : f ∈ schema)
    (hnum : f.type = FieldType.tInt ∨ f.type = FieldType.tFloat)
    (hraw : rawValue env dotenv f.name = some raw)
    (hfail : coerce f.type raw = none) :
    (LoadError.coercionFailure f.name raw f.type ∈ loadErrors env dotenv
        ∧ load env dotenv = Except.error (loadErrors env dotenv)
        ∧ ∀ s : Settings, load env dotenv ≠ Except.ok s)
      ∧ numericFieldNames = ["port", "max_free_menu_parses",
          "default_free_credits", "credits_per_order", "credits_per_rejection",
          "credits_per_menu_import"]
      ∧ coerce FieldType.tInt "abc" = none
      ∧ coerce FieldType.tFloat "abc" = none := by
  have hfe : fieldError env dotenv f = some (.coercionFailure f.name raw f.type) := by
    simp [fieldError, hraw, hfail]
  have hmem := mem_loadErrors_of_fieldError env dotenv f _ hf hfe
  obtain ⟨hload, hnok⟩ := load_error_of_mem env dotenv _ hmem
  exact ⟨⟨hmem, hload, hnok⟩, by decide, by decide, by decide⟩

/-- Witness for C5: port set to "abc" in the environment. -/
theorem c5_numeric_coercion_failure_witness :
    (FieldSpec.mk "port" FieldType.tInt (some (Value.vInt 8000)) ∈ schema
        ∧ rawValue (("port", "abc") :: exEnv) [] "port" = some "abc"
        ∧ coerce FieldType.tInt "abc" = none)
      ∧ ((LoadError.coercionFailure "port" "abc" FieldType.tInt
            ∈ loadErrors (("port", "abc") :: exEnv) []
        ∧ load (("port", "abc") :: exEnv) []
            = Except.error (loadErrors (("port", "abc") :: exEnv) [])
        ∧ ∀ s : Settings, load (("port", "abc") :: exEnv) [] ≠ Except.ok s)
      ∧ numericFieldNames = ["port", "max_free_menu_parses",
          "default_free_credits", "credits_per_order", "credits_per_rejection",
          "credits_per_menu_import"]
      ∧ coerce FieldType.tInt "abc" = none
      ∧ coerce FieldType.tFloat "abc" = none) :=
  ⟨⟨by decide, by decide, by decide⟩,
    c5_numeric_coercion_failure (("port", "abc") :: exEnv) []
      ⟨"port", .tInt, some (.vInt 8000)⟩ "abc" (by decide) (Or.inl rfl)
      (by decide) (by decide)⟩

/-- Claim C6: a resolved value for the boolean field debug that is outside
the accepted token set fails the whole load with a coercion error; no
default is substituted and no Settings instance is produced. -/
theorem c6_debug_coercion_failure (env dotenv : Env) (raw : String)
    (hraw : rawValue env dotenv "debug" = some raw)
    (htok : parseBool raw = none) :
    LoadError.coercionFailure "debug" raw FieldType.tBool ∈ loadErrors env dotenv
      ∧ load env dotenv = Except.error (loadErrors env dotenv)
      ∧ ∀ s : Settings, load env dotenv ≠ Except.ok s := by
  have hfe : fieldError env dotenv ⟨"debug", .tBool, some (.vBool true)⟩
      = some (.coercionFailure "debug" raw .tBool) := by
    simp [fieldError, hraw, coerce, htok]
  have hmem := mem_loadErrors_of_fieldError env dotenv
    ⟨"debug", .tBool, some (.vBool true)⟩ _ (by decide) hfe
  obtain ⟨hload, hnok⟩ := load_error_of_mem env dotenv _ hmem
  exact ⟨hmem, hload, hnok⟩

/-- Witness for C6: debug set to "maybe". -/
theorem c6_debug_coercion_failure_witness :
    (rawValue [("debug", "maybe")] [] "debug" = some "maybe"
        ∧ parseBool "maybe" = none)
      ∧ (LoadError.coercionFailure "debug" "maybe" FieldType.tBool
            ∈ loadErrors [("debug", "maybe")] []
        ∧ load [("debug", "maybe")] []
            = Except.error (loadErrors [("debug", "maybe")] [])
        ∧ ∀ s : Settings, load [("debug", "maybe")] [] ≠ Except.ok s) :=
  ⟨⟨by decide, by decide⟩,
    c6_debug_coercion_failure [("debug", "maybe")] [] "maybe"
      (by decide) (by decide)⟩

/-- Claim C7: loading is deterministic in its inputs; two successful loads
of the same environment and override file yield equal Settings instances
(fieldwise identical, by structure equality). -/
theorem c7_load_deterministic (env dotenv : Env) (s1 s2 : Settings)
    (h1 : load env dotenv = Except.ok s1)
    (h2 : load env dotenv = Except.ok s2) : s1 = s2 := by
  rw [h1] at h2
  injection h2

/-- Witness for C7 on the end-to-end example environment. -/
theorem c7_load_deterministic_witness :
    buildSettings exEnv [] = buildSettings exEnv [] := by
  have hnil : loadErrors exEnv [] = [] := by decide
  have hld : load exEnv [] = Except.ok (buildSettings exEnv []) := by
    unfold load
    rw [if_pos hnil]
  exact c7_load_deterministic exEnv [] _ _ hld hld

/-- Claim C8: environment matching is case-insensitive; a value supplied
under any case variant of a declared field's name is, on a successful load,
the value that field coerces from. -/
theorem c8_case_insensitive_env (env dotenv : Env) (s : Settings)
    (f : FieldSpec) (k v : String) (hf : f ∈ schema)
    (hk : lowerStr k = f.name)
    (hs : load ((k, v) :: env) dotenv = Except.ok s) :
    s.get f.name = coerce f.type v := by
  obtain ⟨hnil, rfl⟩ := load_ok_inv _ _ _ hs
  rw [get_buildSettings _ _ hnil f hf]
  have hlook : lookupCI ((k, v) :: env) f.name = some v := by
    simp [lookupCI, List.find?, hk]
  simp [resolvedValue, rawValue, hlook, Option.orElse]

/-- Witness for C8: supabase_url supplied as SUPABASE_URL. -/
theorem c8_case_insensitive_env_witness :
    (buildSettings (("SUPABASE_URL", "https://y.test") :: exEnv) []).get
        "supabase_url" = coerce FieldType.tStr "https://y.test" := by
  have hnil : loadErrors (("SUPABASE_URL", "https://y.test") :: exEnv) [] = [] := by
    decide
  have hld : load (("SUPABASE_URL", "https://y.test") :: exEnv) []
      = Except.ok (buildSettings (("SUPABASE_URL", "https://y.test") :: exEnv) []) := by
    unfold load
    rw [if_pos hnil]
  exact c8_case_insensitive_env exEnv []
    (buildSettings (("SUPABASE_URL", "https://y.test") :: exEnv) [])
    ⟨"supabase_url", .tStr, none⟩ "SUPABASE_URL" "https://y.test"
    (by decide) (by decide) hld

/-- A leading pair whose key lowercases to something other than the looked-up
name is skipped. -/
theorem lookupCI_cons_ne (k v : String) (env : Env) (n : String)
    (h : n ≠ lowerStr k) : lookupCI ((k, v) :: env) n = lookupCI env n := by
  have hb : (lowerStr k == n) = false :=
    beq_eq_false_iff_ne.mpr (fun he => h he.symm)
  simp [lookupCI, List.find?, hb]

/-- An environment entry matching no declared name leaves every field's raw
resolution unchanged. -/
theorem rawValue_cons_undeclared (k v : String) (env dotenv : Env) (n : String)
    (h : n ≠ lowerStr k) :
    rawValue ((k, v) :: env) dotenv n = rawValue env dotenv n := by
  simp [rawValue, lookupCI_cons_ne k v env n h]

/-- An undeclared environment entry changes no field's error. -/
theorem fieldError_cons_undeclared (env dotenv : Env) (k v : String)
    (hk : lowerStr k ∉ schemaNames) (f : FieldSpec) (hf : f ∈ schema) :
    fieldError ((k, v) :: env) dotenv f = fieldError env dotenv f := by
  have hn : f.name ≠ lowerStr k :=
    fun he => hk (he ▸ List.mem_map_of_mem FieldSpec.name hf)
  unfold fieldError
  rw [rawValue_cons_undeclared k v env dotenv f.name hn]

/-- An undeclared environment entry changes no assembled field value. -/
theorem buildSettings_cons_undeclared (env dotenv : Env) (k v : String)
    (hk : lowerStr k ∉ schemaNames) :
    buildSettings ((k, v) :: env) dotenv = buildSettings env dotenv := by
  have hraw : ∀ n, n ∈ schemaNames →
      rawValue ((k, v) :: env) dotenv n = rawValue env dotenv n :=
    fun n hn => rawValue_cons_undeclared k v env dotenv n (fun he => hk (he ▸ hn))
  unfold buildSettings strField intField boolField ratField
  rw [hraw "environment" (by decide), hraw "debug" (by decide),
    hraw "app_name" (by decide), hraw "host" (by decide),
    hraw "port" (by decide), hraw "supabase_url" (by decide),
    hraw "supabase_key" (by decide), hraw "supabase_service_key" (by decide),
    hraw "facebook_page_access_token" (by decide),
    hraw "facebook_verify_token" (by decide),
    hraw "facebook_app_secret" (by decide),
    hraw "anthropic_api_key" (by decide), hraw "openai_api_key" (by decide),
    hraw "llm_provider" (by decide), hraw "stripe_secret_key" (by decide),
    hraw "stripe_publishable_key" (by decide),
    hraw "stripe_webhook_secret" (by decide),
    hraw "default_venue_language" (by decide),
    hraw "max_free_menu_parses" (by decide),
    hraw "default_free_credits" (by decide),
    hraw "credits_per_order" (by decide),
    hraw "credits_per_rejection" (by decide),
    hraw "credits_per_menu_import" (by decide), hraw "log_level" (by decide)]

/-- An undeclared environment entry changes no load error. -/
theorem loadErrors_cons_undeclared (env dotenv : Env) (k v : String)
    (hk : lowerStr k ∉ schemaNames) :
    loadErrors ((k, v) :: env) dotenv = loadErrors env dotenv := by
  unfold loadErrors
  rw [filterMap_ext_on (fieldError ((k, v) :: env) dotenv)
    (fieldError env dotenv) schema
    (fun f hf => fieldError_cons_undeclared env dotenv k v hk f hf)]

/-- Claim C9 counterexample: with the nine required fields supplied by the
environment, the load succeeds with an empty override file, but adding the
single undeclared override-file entry unrelated_key=x makes the very same
load fail.  An undeclared override-file entry does cause the load to
fail. -/
theorem c9_counterexample :
    load exEnv [] = Except.ok (buildSettings exEnv [])
      ∧ load exEnv [("unrelated_key", "x")]
        = Except.error [LoadError.extraForbidden "unrelated_key"] := by
  constructor
  · unfold load
    rw [if_pos (show loadErrors exEnv [] = [] by decide)]
  · unfold load
    rw [if_neg (show ¬loadErrors exEnv [("unrelated_key", "x")] = [] by decide),
      show loadErrors exEnv [("unrelated_key", "x")]
        = [LoadError.extraForbidden "unrelated_key"] by decide]

/-- Claim C9 (amended): noninterference holds for environment variables — an
environment entry whose key matches no declared field, case-insensitively,
leaves the whole load result unchanged — but not for the override file: an
undeclared override-file entry makes the load fail, so no Settings instance
is produced from it. -/
theorem c9_amended_noninterference (env dotenv : Env) (k v : String)
    (hk : lowerStr k ∉ schemaNames) :
    load ((k, v) :: env) dotenv = load env dotenv
      ∧ ((k, v) ∈ dotenv → ∀ s : Settings, load env dotenv ≠ Except.ok s) := by
  constructor
  · unfold load
    rw [loadErrors_cons_undeclared env dotenv k v hk,
      buildSettings_cons_undeclared env dotenv k v hk]
  · intro hmemdot s
    have hx : LoadError.extraForbidden k ∈ extraErrors dotenv :=
      List.mem_filterMap.mpr ⟨(k, v), hmemdot, by simp [hk]⟩
    have hmem : LoadError.extraForbidden k ∈ loadErrors env dotenv :=
      List.mem_append.mpr (Or.inr hx)
    exact (load_error_of_mem env dotenv _ hmem).2 s

/-- Witness for the amended C9 at the key unrelated_key. -/
theorem c9_amended_noninterference_witness :
    lowerStr "unrelated_key" ∉ schemaNames
      ∧ (load (("unrelated_key", "x") :: exEnv) [("unrelated_key", "x")]
          = load exEnv [("unrelated_key", "x")]
        ∧ (("unrelated_key", "x") ∈ [("unrelated_key", "x")] →
            ∀ s : Settings,
              load exEnv [("unrelated_key", "x")] ≠ Except.ok s)) :=
  ⟨by decide, c9_amended_noninterference exEnv [("unrelated_key", "x")]
    "unrelated_key" "x" (by decide)⟩

/-- Claim C4 counterexample: assigning port := 1 on a constructed instance
under the module's model configuration is not rejected — it succeeds and
returns the updated instance, because `config.py` does not freeze the
model. -/
theorem c4_counterexample :
    setAttr Settings.model_config (buildSettings exEnv []) "port" (Value.vInt 1)
      = Except.ok { buildSettings exEnv [] with port := 1 } := rfl

/-- Claim C4 (amended): the module itself performs no post-construction
mutation, but read-onlyness is not enforced: the model configuration leaves
`frozen` at its default `false`, so assigning to a field of a constructed
Settings instance is accepted, not rejected; it would be rejected only under
a frozen configuration. -/
theorem c4_amended_not_frozen :
    Settings.model_config.frozen = false
      ∧ (∀ (s : Settings) (n : Int),
          setAttr Settings.model_config s "port" (Value.vInt n)
            = Except.ok { s with port := n })
      ∧ (∀ (cfg : SettingsConfig) (s : Settings) (n : Int), cfg.frozen = true →
          setAttr cfg s "port" (Value.vInt n)
            = Except.error "settings instance is frozen") := by
  refine ⟨rfl, fun s n => rfl, fun cfg s n hfz => ?_⟩
  unfold setAttr
  rw [if_pos hfz]

/-- Witness for the amended C4: assignment accepted on the example instance,
rejected under a frozen configuration. -/
theorem c4_amended_not_frozen_witness :
    setAttr Settings.model_config (buildSettings exEnv []) "port" (Value.vInt 9)
        = Except.ok { buildSettings exEnv [] with port := 9 }
      ∧ setAttr { Settings.model_config with frozen := true }
          (buildSettings exEnv []) "port" (Value.vInt 9)
        = Except.error "settings instance is frozen" :=
  ⟨c4_amended_not_frozen.2.1 (buildSettings exEnv []) 9,
    c4_amended_not_frozen.2.2 { Settings.model_config with frozen := true }
      (buildSettings exEnv []) 9 rfl⟩

/-- Claim C10: boolean coercion for the debug field accepts exactly the
case-insensitive tokens true/t/yes/y/on/1 (giving true) and
false/f/no/n/off/0 (giving false). -/
theorem c10_bool_token_set (s : String) :
    coerce FieldType.tBool s = (parseBool s).map Value.vBool
      ∧ (parseBool s = some true ↔ lowerStr s ∈ trueTokens)
      ∧ (parseBool s = some false ↔ lowerStr s ∈ falseTokens)
      ∧ trueTokens = ["true", "t", "yes", "y", "on", "1"]
      ∧ falseTokens = ["false", "f", "no", "n", "off", "0"]
      ∧ FieldSpec.mk "debug" FieldType.tBool (some (Value.vBool true)) ∈ schema := by
  refine ⟨rfl, ?_, ?_, rfl, rfl, by decide⟩
  · by_cases h1 : lowerStr s ∈ trueTokens
    · simp [parseBool, h1]
    · by_cases h2 : lowerStr s ∈ falseTokens
      · simp [parseBool, h1, h2]
      · simp [parseBool, h1, h2]
  · by_cases h1 : lowerStr s ∈ trueTokens
    · simp only [trueTokens, List.mem_cons, List.not_mem_nil, or_false] at h1
      rcases h1 with h | h | h | h | h | h <;>
        simp [parseBool, trueTokens, falseTokens, h]
    · by_cases h2 : lowerStr s ∈ falseTokens
      · simp [parseBool, h1, h2]
      · simp [parseBool, h1, h2]

/-- Witness for C10 at the token "TRUE". -/
theorem c10_bool_token_set_witness :
    coerce FieldType.tBool "TRUE" = (parseBool "TRUE").map Value.vBool
      ∧ (parseBool "TRUE" = some true ↔ lowerStr "TRUE" ∈ trueTokens)
      ∧ (parseBool "TRUE" = some false ↔ lowerStr "TRUE" ∈ falseTokens)
      ∧ trueTokens = ["true", "t", "yes", "y", "on", "1"]
      ∧ falseTokens = ["false", "f", "no", "n", "off", "0"]
      ∧ FieldSpec.mk "debug" FieldType.tBool (some (Value.vBool true)) ∈ schema :=
  c10_bool_token_set "TRUE"

end OrderOctopus
